import Mathlib

/-!
Shallow embedding of `src/app/llm/model/model.py` (class `GroqModel`), a
credential-rotating wrapper around an external chat client.

Modelling conventions:
* Python exceptions are values of `PyError`; a method that can raise and also
  mutates `self` returns `GroqModel × Except PyError α`, so that state changes
  made before the exception persist (as they do in Python).
* The external collaborator capabilities of the delegate client
  (`get_num_tokens_from_messages` and `ainvoke`) are passed in as function
  parameters: `tok : ChatGroq → List Message → Nat` and
  `ainvoke : ChatGroq → List Message → Except PyError Response`.
* The usage dictionary `self.usage_tracker` is a partial map
  `String → Option Nat`; `none` means the key is absent (lookup raises
  `KeyError` in Python).
-/

/-- Python exceptions that the embedded code can surface. -/
inductive PyError where
  | valueError (msg : String)
  | keyError
  | indexError
  | providerError (msg : String)
deriving DecidableEq, Repr

/-- A LangChain message, as built by `chat`: `SystemMessage` or `HumanMessage`. -/
inductive Message where
  | system (content : String)
  | human (content : String)
deriving DecidableEq, Repr

/-- The delegate client object: `ChatGroq(model=..., groq_api_key=...)`. -/
structure ChatGroq where
  model : String
  groq_api_key : String
deriving DecidableEq, Repr

/-- The delegate response object; `chat` reads `response.content`. -/
structure Response where
  content : String
deriving DecidableEq, Repr

/-- Python list indexing `xs[i]` for a natural index: `IndexError` when out of range. -/
def listGet (xs : List α) (i : Nat) : Except PyError α :=
  match xs[i]? with
  | some x => Except.ok x
  | none => Except.error PyError.indexError

/-- Python dict lookup `d[k]`: `KeyError` when the key is absent. -/
def dictGet (d : String → Option Nat) (k : String) : Except PyError Nat :=
  match d k with
  | some v => Except.ok v
  | none => Except.error PyError.keyError

/-- Python dict assignment `d[k] = v`. -/
def dictSet (d : String → Option Nat) (k : String) (v : Nat) : String → Option Nat :=
  fun q => if q = k then some v else d q

/-- Helper for `pySplitComma`: fold over the characters, `acc` holding the
(reversed) characters of the piece being read. -/
def splitCommaAux : List Char → List Char → List String
  | [], acc => [String.mk acc.reverse]
  | c :: cs, acc =>
    if c = ',' then String.mk acc.reverse :: splitCommaAux cs []
    else splitCommaAux cs (c :: acc)

/-- Python `raw_keys.split(",")`: split on every comma, keeping empty pieces;
the empty string yields `[""]` and `","` yields `["", ""]`. -/
def pySplitComma (s : String) : List String :=
  splitCommaAux s.data []

/-- Python `str.strip()`: drop leading and trailing whitespace. -/
def pyStrip (s : String) : String :=
  String.mk (((s.data.dropWhile Char.isWhitespace).reverse.dropWhile Char.isWhitespace).reverse)

/-- Helper for `wordCount`: count maximal non-whitespace runs; the flag records
whether we are inside a run. -/
def countWordsAux : List Char → Bool → Nat
  | [], _ => 0
  | c :: cs, inWord =>
    if c.isWhitespace then countWordsAux cs false
    else (if inWord then 0 else 1) + countWordsAux cs true

/-- `len(response.content.split())` in the usage update of `chat`: Python
`str.split()` with no separator splits on whitespace runs and drops empty
pieces, so its length is the number of maximal non-whitespace runs. -/
def wordCount (s : String) : Nat :=
  countWordsAux s.data false

/-- The state of a `GroqModel` instance. -/
structure GroqModel where
  api_keys : List String
  current_index : Nat
  model_name : String
  context_limit : Int
  client : ChatGroq
  usage_tracker : String → Option Nat

/-- `GroqModel.__init__`, with the raw environment value `os.getenv("GROQ_API_KEYS")`
passed in (`none` models an unset variable). -/
def GroqModel.init (raw_keys : Option String) : Except PyError GroqModel :=
  match raw_keys with
  | none => Except.error (PyError.valueError "GROQ_API_KEYS not found in environment variables.")
  | some raw =>
    if raw = "" then
      Except.error (PyError.valueError "GROQ_API_KEYS not found in environment variables.")
    else
      let api_keys := (pySplitComma raw).map pyStrip
      match listGet api_keys 0 with
      | Except.error e => Except.error e
      | Except.ok first_key =>
        Except.ok
          { api_keys := api_keys
            current_index := 0
            model_name := "llama-3.1-70b-versatile"
            context_limit := 8192
            client := { model := "llama-3.1-70b-versatile", groq_api_key := first_key }
            usage_tracker := fun key => if key ∈ api_keys then some 0 else none }

/-- `GroqModel._init_client`: build a `ChatGroq` bound to the given key. -/
def GroqModel.init_client (m : GroqModel) (key : String) : ChatGroq :=
  { model := m.model_name, groq_api_key := key }

/-- `GroqModel._switch_key`: advance the cursor cyclically and rebuild the client. -/
def GroqModel.switch_key (m : GroqModel) : GroqModel × Except PyError Unit :=
  match listGet m.api_keys m.current_index with
  | Except.error e => (m, Except.error e)
  | Except.ok _old_key =>
    let m1 : GroqModel := { m with current_index := (m.current_index + 1) % m.api_keys.length }
    match listGet m1.api_keys m1.current_index with
    | Except.error e => (m1, Except.error e)
    | Except.ok new_key => ({ m1 with client := m1.init_client new_key }, Except.ok ())

/-- `GroqModel._check_and_switch_key`: rotate when the in-memory soft quota
(1,000,000 per key) leaves fewer than 3000 tokens. -/
def GroqModel.check_and_switch_key (m : GroqModel) : GroqModel × Except PyError Unit :=
  match listGet m.api_keys m.current_index with
  | Except.error e => (m, Except.error e)
  | Except.ok current_key =>
    match dictGet m.usage_tracker current_key with
    | Except.error e => (m, Except.error e)
    | Except.ok used_tokens =>
      let remaining_quota : Int := 1000000 - (used_tokens : Int)
      if remaining_quota < 3000 then m.switch_key else (m, Except.ok ())

/-- `GroqModel.get_token_count`: delegate token counting on the current client. -/
def GroqModel.get_token_count (tok : ChatGroq → List Message → Nat)
    (m : GroqModel) (messages : List Message) : Nat :=
  tok m.client messages

/-- `GroqModel.get_remaining_tokens`: `context_limit - used`. -/
def GroqModel.get_remaining_tokens (tok : ChatGroq → List Message → Nat)
    (m : GroqModel) (messages : List Message) : Int :=
  let used := GroqModel.get_token_count tok m messages
  m.context_limit - (used : Int)

/-- The message list `chat` builds: optional system message (skipped when the
system prompt is `None` or empty, by Python truthiness), then the user message. -/
def buildMessages (system_prompt : Option String) (prompt : String) : List Message :=
  (match system_prompt with
   | some s => if s ≠ "" then [Message.system s] else []
   | none => []) ++ [Message.human prompt]

/-- `GroqModel.chat`: build the session, estimate tokens, maybe rotate, delegate
the call, update usage, return the response text. -/
def GroqModel.chat (tok : ChatGroq → List Message → Nat)
    (ainvoke : ChatGroq → List Message → Except PyError Response)
    (m : GroqModel) (prompt : String) (system_prompt : Option String) :
    GroqModel × Except PyError String :=
  let messages := buildMessages system_prompt prompt
  let used := GroqModel.get_token_count tok m messages
  let _remaining := GroqModel.get_remaining_tokens tok m messages
  match m.check_and_switch_key with
  | (m1, Except.error e) => (m1, Except.error e)
  | (m1, Except.ok ()) =>
    match ainvoke m1.client messages with
    | Except.error e => (m1, Except.error e)
    | Except.ok response =>
      match listGet m1.api_keys m1.current_index with
      | Except.error e => (m1, Except.error e)
      | Except.ok current_key =>
        match dictGet m1.usage_tracker current_key with
        | Except.error e => (m1, Except.error e)
        | Except.ok old =>
          ({ m1 with usage_tracker :=
               dictSet m1.usage_tracker current_key (old + (used + wordCount response.content)) },
           Except.ok response.content)

/-- Iterated forced rotation: `n` consecutive `_switch_key` calls. -/
def iterSwitch : Nat → GroqModel → GroqModel × Except PyError Unit
  | 0, m => (m, Except.ok ())
  | n + 1, m =>
    match m.switch_key with
    | (m1, Except.ok _) => iterSwitch n m1
    | (m1, Except.error e) => (m1, Except.error e)

/-- The cursor invariant: `0 <= current_index < len(api_keys)`. -/
def GroqModel.CursorInv (m : GroqModel) : Prop :=
  m.current_index < m.api_keys.length

/-- Usage map of the rotation scenario of the spec: `usage["keyA"]` preset to
999000, `usage["keyB"]` at 0. -/
def demoTracker : String → Option Nat := fun k =>
  if k = "keyA" then some 999000 else if k = "keyB" then some 0 else none

/-- The two-key scenario state: pool `["keyA", "keyB"]`, cursor on `keyA`,
client bound to `keyA`, usage preset by `demoTracker`. -/
def demoState : GroqModel :=
  { api_keys := ["keyA", "keyB"]
    current_index := 0
    model_name := "llama-3.1-70b-versatile"
    context_limit := 8192
    client := { model := "llama-3.1-70b-versatile", groq_api_key := "keyA" }
    usage_tracker := demoTracker }

/-- The one-key scenario state: pool `["onlyKey"]`, usage near the soft cap. -/
def soloState : GroqModel :=
  { api_keys := ["onlyKey"]
    current_index := 0
    model_name := "llama-3.1-70b-versatile"
    context_limit := 8192
    client := { model := "llama-3.1-70b-versatile", groq_api_key := "onlyKey" }
    usage_tracker := fun k => if k = "onlyKey" then some 999500 else none }

/-- A fresh two-key state with zero usage (no rotation pending). -/
def freshState : GroqModel :=
  { api_keys := ["keyA", "keyB"]
    current_index := 0
    model_name := "llama-3.1-70b-versatile"
    context_limit := 8192
    client := { model := "llama-3.1-70b-versatile", groq_api_key := "keyA" }
    usage_tracker := fun k => if k = "keyA" then some 0 else if k = "keyB" then some 0 else none }

/-! ### Helper lemmas -/

theorem splitCommaAux_ne_nil (cs acc : List Char) : splitCommaAux cs acc ≠ [] := by
  induction cs generalizing acc with
  | nil => simp [splitCommaAux]
  | cons c cs ih =>
    rw [splitCommaAux]
    split
    · simp
    · exact ih (c :: acc)

theorem pySplitComma_ne_nil (s : String) : pySplitComma s ≠ [] :=
  splitCommaAux_ne_nil s.data []

theorem listGet_eq_ok (xs : List α) (i : Nat) (d : α) (h : i < xs.length) :
    listGet xs i = Except.ok (xs.getD i d) := by
  unfold listGet
  rw [List.getElem?_eq_getElem h, List.getD_eq_getElem xs d h]

/-- On an in-range cursor, `_switch_key` succeeds, advances the cursor mod the
pool size, rebuilds the client on the new key, and changes nothing else. -/
theorem switch_key_eq (m : GroqModel) (h : m.CursorInv) :
    m.switch_key =
      ({ m with current_index := (m.current_index + 1) % m.api_keys.length,
                client := { model := m.model_name,
                            groq_api_key :=
                              m.api_keys.getD ((m.current_index + 1) % m.api_keys.length) "" } },
       Except.ok ()) := by
  have hlen : 0 < m.api_keys.length := Nat.lt_of_le_of_lt (Nat.zero_le _) h
  have h2 : (m.current_index + 1) % m.api_keys.length < m.api_keys.length := Nat.mod_lt _ hlen
  unfold GroqModel.switch_key
  rw [listGet_eq_ok m.api_keys m.current_index "" h]
  simp only [listGet_eq_ok _ _ "" h2]
  rfl

theorem switch_key_fst_api_keys (m : GroqModel) : (m.switch_key).1.api_keys = m.api_keys := by
  unfold GroqModel.switch_key
  split
  · rfl
  · dsimp only
    split <;> rfl

theorem switch_key_fst_usage (m : GroqModel) :
    (m.switch_key).1.usage_tracker = m.usage_tracker := by
  unfold GroqModel.switch_key
  split
  · rfl
  · dsimp only
    split <;> rfl

theorem switch_key_fst_inv (m : GroqModel) (h : m.CursorInv) : (m.switch_key).1.CursorInv := by
  rw [switch_key_eq m h]
  exact Nat.mod_lt _ (Nat.lt_of_le_of_lt (Nat.zero_le _) h)

theorem check_fst_api_keys (m : GroqModel) :
    (m.check_and_switch_key).1.api_keys = m.api_keys := by
  unfold GroqModel.check_and_switch_key
  split
  · rfl
  · split
    · rfl
    · dsimp only
      split
      · exact switch_key_fst_api_keys m
      · rfl

theorem check_fst_usage (m : GroqModel) :
    (m.check_and_switch_key).1.usage_tracker = m.usage_tracker := by
  unfold GroqModel.check_and_switch_key
  split
  · rfl
  · split
    · rfl
    · dsimp only
      split
      · exact switch_key_fst_usage m
      · rfl

theorem check_fst_inv (m : GroqModel) (h : m.CursorInv) :
    (m.check_and_switch_key).1.CursorInv := by
  unfold GroqModel.check_and_switch_key
  split
  · exact h
  · split
    · exact h
    · dsimp only
      split
      · exact switch_key_fst_inv m h
      · exact h

/-- Iterated `_switch_key` from an in-range cursor always succeeds, adds the
iteration count to the cursor modulo the pool size, and preserves the pool. -/
theorem iterSwitch_eq (k : Nat) : ∀ (m : GroqModel), m.CursorInv →
    ∃ m1, iterSwitch k m = (m1, Except.ok ()) ∧
      m1.current_index = (m.current_index + k) % m.api_keys.length ∧
      m1.api_keys = m.api_keys := by
  induction k with
  | zero =>
    intro m h
    exact ⟨m, rfl, by simp [Nat.mod_eq_of_lt h], rfl⟩
  | succ n ih =>
    intro m h
    have hlen : 0 < m.api_keys.length := Nat.lt_of_le_of_lt (Nat.zero_le _) h
    have h2 : (m.current_index + 1) % m.api_keys.length < m.api_keys.length := Nat.mod_lt _ hlen
    rw [iterSwitch, switch_key_eq m h]
    obtain ⟨m1, he, hi, hk⟩ :=
      ih { m with current_index := (m.current_index + 1) % m.api_keys.length,
                  client := { model := m.model_name,
                              groq_api_key :=
                                m.api_keys.getD ((m.current_index + 1) % m.api_keys.length) "" } }
        h2
    refine ⟨m1, he, ?_, hk⟩
    rw [hi]
    dsimp only
    rw [Nat.mod_add_mod]
    congr 1
    omega

/-! ### Claim theorems -/

/-- C1: `_check_and_switch_key` computes `remaining_quota = 1000000 - usage[current_key]`;
exactly when that is below 3000 it advances the cursor to `(current_index + 1) mod
poolSize` and rebuilds the client on the new key, and otherwise it leaves the
cursor, the client and the usage map unchanged. -/
theorem check_and_switch_key_threshold (m : GroqModel)
    (h : m.CursorInv) (u : Nat)
    (hu : m.usage_tracker (m.api_keys.getD m.current_index "") = some u) :
    (((1000000 : Int) - (u : Int) < 3000) →
      m.check_and_switch_key =
        ({ m with current_index := (m.current_index + 1) % m.api_keys.length,
                  client := { model := m.model_name,
                              groq_api_key :=
                                m.api_keys.getD ((m.current_index + 1) % m.api_keys.length) "" } },
         Except.ok ()))
    ∧ (¬ ((1000000 : Int) - (u : Int) < 3000) →
      m.check_and_switch_key = (m, Except.ok ())) := by
  have hmain : m.check_and_switch_key =
      if (1000000 : Int) - (u : Int) < 3000 then m.switch_key else (m, Except.ok ()) := by
    unfold GroqModel.check_and_switch_key
    rw [listGet_eq_ok m.api_keys m.current_index "" h]
    simp only [dictGet, hu]
  constructor
  · intro hlow
    rw [hmain, if_pos hlow, switch_key_eq m h]
  · intro hok
    rw [hmain, if_neg hok]

/-- C1 witness: in the two-key scenario with `usage["keyA"] = 999000`, the check
rotates the cursor from 0 to 1. -/
theorem check_and_switch_key_threshold_witness :
    (demoState.check_and_switch_key).1.current_index = 1 := by
  have h := (check_and_switch_key_threshold demoState
    (show demoState.current_index < demoState.api_keys.length by decide)
    999000 (by decide)).1 (by decide)
  rw [h]
  decide

/-- C4: rotation is cyclic: for a pool of size N at least 1 starting at index 0,
N consecutive forced rotations succeed and return the cursor to 0; for a pool of
size 1 a single rotation keeps the cursor at 0 and rebuilds the client on the
same (only) credential, raising no exception. -/
theorem rotation_cyclic (m : GroqModel) (h0 : m.current_index = 0)
    (hlen : 1 ≤ m.api_keys.length) :
    (∃ m1, iterSwitch m.api_keys.length m = (m1, Except.ok ()) ∧ m1.current_index = 0) ∧
    (m.api_keys.length = 1 →
      m.switch_key =
        ({ m with current_index := 0,
                  client := { model := m.model_name, groq_api_key := m.api_keys.getD 0 "" } },
         Except.ok ())) := by
  have hinv : m.CursorInv := by unfold GroqModel.CursorInv; omega
  constructor
  · obtain ⟨m1, he, hi, hk⟩ := iterSwitch_eq m.api_keys.length m hinv
    refine ⟨m1, he, ?_⟩
    rw [hi, h0, Nat.zero_add, Nat.mod_self]
  · intro h1
    rw [switch_key_eq m hinv]
    simp [h0, h1]

/-- C4 witness: one forced rotation on the one-key pool succeeds and leaves the
cursor at 0, rebuilding the client on the same key. -/
theorem rotation_cyclic_witness :
    (∃ m1, iterSwitch 1 soloState = (m1, Except.ok ()) ∧ m1.current_index = 0) ∧
    soloState.switch_key =
      ({ soloState with
          current_index := 0,
          client := { model := "llama-3.1-70b-versatile", groq_api_key := "onlyKey" } },
       Except.ok ()) := by
  have h := rotation_cyclic soloState rfl (by decide)
  exact ⟨h.1, h.2 rfl⟩

/-- C5: `get_remaining_tokens` is exactly `context_limit - get_token_count` with
the fixed context limit 8192, computed in unbounded integers (so a negative
result is returned normally, not raised as an error). -/
theorem remaining_tokens_identity (tok : ChatGroq → List Message → Nat)
    (m : GroqModel) (messages : List Message) (h : m.context_limit = 8192) :
    GroqModel.get_remaining_tokens tok m messages =
      8192 - (GroqModel.get_token_count tok m messages : Int) := by
  unfold GroqModel.get_remaining_tokens
  rw [h]

/-- C5 witness: a delegate token count of 9000 on the 8192 limit yields the
negative value -808, returned as an ordinary result. -/
theorem remaining_tokens_identity_witness :
    GroqModel.get_remaining_tokens (fun _ _ => 9000) demoState [] = -808 ∧
    GroqModel.get_remaining_tokens (fun _ _ => 9000) demoState [] < 0 := by
  have h := remaining_tokens_identity (fun _ _ => 9000) demoState [] rfl
  rw [h]
  constructor <;> decide

/-- Successful-path equation for `chat`: when the rotation check, the delegate
invocation, and the usage lookups all succeed, `chat` returns the response text
and adds `used + wordCount(response)` to the post-rotation key's counter. -/
theorem chat_ok_eq (tok : ChatGroq → List Message → Nat)
    (ainvoke : ChatGroq → List Message → Except PyError Response)
    (m m1 : GroqModel) (prompt : String) (sp : Option String)
    (cur : String) (u : Nat) (resp : Response)
    (hrot : m.check_and_switch_key = (m1, Except.ok ()))
    (hcur : listGet m1.api_keys m1.current_index = Except.ok cur)
    (hu : m1.usage_tracker cur = some u)
    (hinv : ainvoke m1.client (buildMessages sp prompt) = Except.ok resp) :
    GroqModel.chat tok ainvoke m prompt sp =
      ({ m1 with
          usage_tracker :=
            dictSet m1.usage_tracker cur
              (u + (GroqModel.get_token_count tok m (buildMessages sp prompt)
                + wordCount resp.content)) },
       Except.ok resp.content) := by
  unfold GroqModel.chat
  dsimp only
  rw [hrot]
  dsimp only
  rw [hinv, hcur]
  dsimp only
  simp only [dictGet, hu]

/-- Error-path equation for `chat`: when the rotation check succeeds but the
delegate invocation fails, `chat` surfaces that error with the post-rotation
state and performs no usage update. -/
theorem chat_err_eq (tok : ChatGroq → List Message → Nat)
    (ainvoke : ChatGroq → List Message → Except PyError Response)
    (m m1 : GroqModel) (prompt : String) (sp : Option String) (e : PyError)
    (hrot : m.check_and_switch_key = (m1, Except.ok ()))
    (hinv : ainvoke m1.client (buildMessages sp prompt) = Except.error e) :
    GroqModel.chat tok ainvoke m prompt sp = (m1, Except.error e) := by
  unfold GroqModel.chat
  dsimp only
  rw [hrot]
  dsimp only
  rw [hinv]

/-- C2: every successful `chat` call adds exactly
`estimateTokens(session) + wordCount(responseText)` — the token estimate taken
on the pre-rotation client — to the usage counter of the credential active
after the rotation check, and leaves every other credential's counter
unchanged. -/
theorem chat_usage_update (tok : ChatGroq → List Message → Nat)
    (ainvoke : ChatGroq → List Message → Except PyError Response)
    (m m2 : GroqModel) (prompt : String) (sp : Option String) (text : String)
    (h : GroqModel.chat tok ainvoke m prompt sp = (m2, Except.ok text)) :
    ∃ m1 cur u,
      m.check_and_switch_key = (m1, Except.ok ()) ∧
      listGet m1.api_keys m1.current_index = Except.ok cur ∧
      m.usage_tracker cur = some u ∧
      m2.usage_tracker cur =
        some (u + (GroqModel.get_token_count tok m (buildMessages sp prompt)
          + wordCount text)) ∧
      (∀ k, k ≠ cur → m2.usage_tracker k = m.usage_tracker k) := by
  unfold GroqModel.chat at h
  dsimp only at h
  rcases hc : m.check_and_switch_key with ⟨m1, r⟩
  rw [hc] at h
  have husage : m1.usage_tracker = m.usage_tracker := by
    have hu0 := check_fst_usage m
    rw [hc] at hu0
    exact hu0
  cases r with
  | error e => simp at h
  | ok u0 =>
    cases u0
    dsimp only at h
    cases hA : ainvoke m1.client (buildMessages sp prompt) with
    | error e =>
      rw [hA] at h
      simp at h
    | ok resp =>
      rw [hA] at h
      dsimp only at h
      cases hL : listGet m1.api_keys m1.current_index with
      | error e =>
        rw [hL] at h
        simp at h
      | ok cur =>
        rw [hL] at h
        dsimp only at h
        simp only [dictGet] at h
        cases hD : m1.usage_tracker cur with
        | none =>
          rw [hD] at h
          simp at h
        | some u =>
          rw [hD] at h
          dsimp only at h
          rw [Prod.mk.injEq] at h
          obtain ⟨hm2, htext⟩ := h
          have hct : resp.content = text := by
            injection htext
          refine ⟨m1, cur, u, rfl, hL, ?_, ?_, ?_⟩
          · rw [← husage]
            exact hD
          · rw [← hm2, ← hct]
            simp [dictSet]
          · intro k hk
            rw [← hm2]
            simp only [dictSet]
            rw [if_neg hk, husage]

/-- C2 witness: a concrete successful call on the fresh two-key state with a
delegate estimate of 5 tokens and the two-word response adds 7 to the counter
of the key that stayed active. -/
theorem chat_usage_update_witness :
    (GroqModel.chat (fun _ _ => 5) (fun _ _ => Except.ok { content := "hi there" })
      freshState "hello" none).1.usage_tracker "keyA" = some 7 := by
  obtain ⟨m1, cur, u, hrot, hcur, hpre, hpost, hoth⟩ :=
    chat_usage_update (fun _ _ => 5) (fun _ _ => Except.ok { content := "hi there" })
      freshState
      (GroqModel.chat (fun _ _ => 5) (fun _ _ => Except.ok { content := "hi there" })
        freshState "hello" none).1
      "hello" none "hi there" rfl
  have hm1 : m1 = freshState := by
    have h1 : (freshState, Except.ok ()) = (m1, Except.ok ()) := hrot
    injection h1 with h1a h1b
    exact h1a.symm
  subst hm1
  have hcur2 : Except.ok (ε := PyError) "keyA" = Except.ok cur := hcur
  have hcurA : cur = "keyA" := by
    injection hcur2 with h2
    exact h2.symm
  subst hcurA
  have hu0 : u = 0 := by
    have h3 : some 0 = some u := hpre
    injection h3 with h3a
    exact h3a.symm
  subst hu0
  rw [hpost]
  decide

/-- C3: in every `chat` call the rotation check runs before the delegate
request is sent, so the delegate receives the request bound to the
post-rotation credential: for all states, prompts and system prompts, the
outcome of `chat` depends on the delegate only through its value at the
post-rotation client and the built session (any two delegates agreeing there
give identical outcomes); and in the two-key scenario with
`usage["keyA"] = 999000`, `chat("hello")` rotates from keyA to keyB and the
delegate invocation that produces the returned response is the one bound to
keyB. -/
theorem chat_rotates_before_send :
    (∀ (tok : ChatGroq → List Message → Nat)
       (ainvoke1 ainvoke2 : ChatGroq → List Message → Except PyError Response)
       (m m1 : GroqModel) (prompt : String) (sp : Option String)
       (r : Except PyError Unit),
       m.check_and_switch_key = (m1, r) →
       ainvoke1 m1.client (buildMessages sp prompt) =
         ainvoke2 m1.client (buildMessages sp prompt) →
       GroqModel.chat tok ainvoke1 m prompt sp =
         GroqModel.chat tok ainvoke2 m prompt sp) ∧
    (∀ (tok : ChatGroq → List Message → Nat)
       (ainvoke : ChatGroq → List Message → Except PyError Response) (resp : Response),
       ainvoke { model := "llama-3.1-70b-versatile", groq_api_key := "keyB" }
         [Message.human "hello"] = Except.ok resp →
       ∃ m2, GroqModel.chat tok ainvoke demoState "hello" none = (m2, Except.ok resp.content) ∧
         m2.current_index = 1 ∧
         m2.client = { model := "llama-3.1-70b-versatile", groq_api_key := "keyB" }) := by
  constructor
  · intro tok a1 a2 m m1 prompt sp r hrot hagree
    unfold GroqModel.chat
    dsimp only
    rw [hrot]
    cases r with
    | error e => rfl
    | ok u =>
      cases u
      dsimp only
      rw [hagree]
  · intro tok ainvoke resp hA
    have hrot : demoState.check_and_switch_key =
        ({ demoState with
            current_index := 1,
            client := { model := "llama-3.1-70b-versatile", groq_api_key := "keyB" } },
         Except.ok ()) := rfl
    exact ⟨_, chat_ok_eq tok ainvoke demoState _ "hello" none "keyB" 0 resp hrot rfl rfl hA,
      rfl, rfl⟩

/-- C3 witness: a delegate answering every client and a delegate answering only
the keyB-bound client agree at keyB, so the two `chat` calls on the rotation
scenario coincide; and the returned state has the cursor on keyB. -/
theorem chat_rotates_before_send_witness :
    GroqModel.chat (fun _ _ => 5) (fun _ _ => Except.ok { content := "fromB" })
      demoState "hello" none =
      GroqModel.chat (fun _ _ => 5)
        (fun c _ =>
          if c.groq_api_key = "keyB" then Except.ok { content := "fromB" }
          else Except.error (PyError.providerError "wrong key"))
        demoState "hello" none ∧
    (GroqModel.chat (fun _ _ => 5) (fun _ _ => Except.ok { content := "fromB" })
      demoState "hello" none).1.current_index = 1 := by
  have ha := chat_rotates_before_send.1 (fun _ _ => 5)
    (fun _ _ => Except.ok { content := "fromB" })
    (fun c _ =>
      if c.groq_api_key = "keyB" then Except.ok { content := "fromB" }
      else Except.error (PyError.providerError "wrong key"))
    demoState
    { demoState with
        current_index := 1,
        client := { model := "llama-3.1-70b-versatile", groq_api_key := "keyB" } }
    "hello" none (Except.ok ()) rfl rfl
  obtain ⟨m2, hm2, hidx, -⟩ := chat_rotates_before_send.2 (fun _ _ => 5)
    (fun _ _ => Except.ok { content := "fromB" }) { content := "fromB" } rfl
  refine ⟨ha, ?_⟩
  rw [hm2]
  exact hidx

/-- C7 counterexample: `chat` does not reject an empty prompt — with an empty
prompt and a successful delegate it returns the response text normally instead
of failing. -/
theorem empty_prompt_not_rejected_cex :
    (GroqModel.chat (fun _ _ => 5) (fun _ _ => Except.ok { content := "hi there" })
      freshState "" none).2 = Except.ok "hi there" := rfl

/-- C7 amended: `chat` performs no validation of the prompt: an empty prompt is
wrapped in the user message like any other, and whenever the delegate succeeds
the call returns its response text normally (no `InvalidInputError` exists in
the code). -/
theorem empty_prompt_accepted (tok : ChatGroq → List Message → Nat)
    (ainvoke : ChatGroq → List Message → Except PyError Response)
    (m m1 : GroqModel) (sp : Option String)
    (cur : String) (u : Nat) (resp : Response)
    (hrot : m.check_and_switch_key = (m1, Except.ok ()))
    (hcur : listGet m1.api_keys m1.current_index = Except.ok cur)
    (hu : m1.usage_tracker cur = some u)
    (hinv : ainvoke m1.client (buildMessages sp "") = Except.ok resp) :
    (GroqModel.chat tok ainvoke m "" sp).2 = Except.ok resp.content := by
  rw [chat_ok_eq tok ainvoke m m1 "" sp cur u resp hrot hcur hu hinv]

/-- C7 witness: the amended statement at the concrete empty-prompt call. -/
theorem empty_prompt_accepted_witness :
    (GroqModel.chat (fun _ _ => 5) (fun _ _ => Except.ok { content := "ok then" })
      freshState "" none).2 = Except.ok "ok then" := by
  exact empty_prompt_accepted (fun _ _ => 5) (fun _ _ => Except.ok { content := "ok then" })
    freshState freshState none "keyA" 0 { content := "ok then" } rfl rfl rfl rfl

/-- C8: when the delegate invocation fails, `chat` returns exactly the
post-rotation-check state with the delegate's error unmodified — no retry, no
further rotation — and every usage counter is unchanged from before the call. -/
theorem chat_error_propagates (tok : ChatGroq → List Message → Nat)
    (ainvoke : ChatGroq → List Message → Except PyError Response)
    (m m1 : GroqModel) (prompt : String) (sp : Option String) (e : PyError)
    (hrot : m.check_and_switch_key = (m1, Except.ok ()))
    (hinv : ainvoke m1.client (buildMessages sp prompt) = Except.error e) :
    GroqModel.chat tok ainvoke m prompt sp = (m1, Except.error e) ∧
    m1.usage_tracker = m.usage_tracker := by
  constructor
  · exact chat_err_eq tok ainvoke m m1 prompt sp e hrot hinv
  · have hu0 := check_fst_usage m
    rw [hrot] at hu0
    exact hu0

/-- C8 witness: a failing delegate call on the fresh state surfaces the provider
error as-is with the state unchanged. -/
theorem chat_error_propagates_witness :
    GroqModel.chat (fun _ _ => 5) (fun _ _ => Except.error (PyError.providerError "boom"))
      freshState "hi" none = (freshState, Except.error (PyError.providerError "boom")) := by
  exact (chat_error_propagates (fun _ _ => 5)
    (fun _ _ => Except.error (PyError.providerError "boom"))
    freshState freshState "hi" none (PyError.providerError "boom") rfl rfl).1

theorem getD_zero_eq_headD (l : List α) (d : α) : l.getD 0 d = l.headD d := by
  cases l <;> rfl

/-- C6: construction fails with the configuration `ValueError` when the
credential input is absent or empty; for any non-empty input it succeeds, sets
the cursor to the first credential, binds the initial client to the first
credential, and initializes every pool credential's usage counter to 0. -/
theorem init_spec (raw : Option String) :
    ((raw = none ∨ raw = some "") →
      GroqModel.init raw =
        Except.error (PyError.valueError "GROQ_API_KEYS not found in environment variables.")) ∧
    (∀ r, raw = some r → r ≠ "" →
      ∃ m, GroqModel.init raw = Except.ok m ∧
        m.current_index = 0 ∧
        m.api_keys ≠ [] ∧
        m.client = { model := m.model_name, groq_api_key := m.api_keys.headD "" } ∧
        (∀ k, m.usage_tracker k = if k ∈ m.api_keys then some 0 else none)) := by
  constructor
  · rintro (rfl | rfl)
    · rfl
    · rfl
  · rintro r rfl hne
    have hnil : (pySplitComma r).map pyStrip ≠ [] := fun hmap =>
      pySplitComma_ne_nil r (List.eq_nil_of_map_eq_nil hmap)
    have hpos : 0 < ((pySplitComma r).map pyStrip).length := List.length_pos.mpr hnil
    refine ⟨{ api_keys := (pySplitComma r).map pyStrip
              current_index := 0
              model_name := "llama-3.1-70b-versatile"
              context_limit := 8192
              client := { model := "llama-3.1-70b-versatile",
                          groq_api_key := ((pySplitComma r).map pyStrip).getD 0 "" }
              usage_tracker :=
                fun key => if key ∈ (pySplitComma r).map pyStrip then some 0 else none },
      ?_, rfl, hnil, ?_, fun k => rfl⟩
    · simp only [GroqModel.init]
      rw [if_neg hne]
      rw [listGet_eq_ok _ 0 "" hpos]
    · dsimp only
      rw [getD_zero_eq_headD]

/-- C6 witness: construction on the absent input fails with the `ValueError`,
and on the input string of two comma-separated keys it succeeds. -/
theorem init_spec_witness :
    GroqModel.init none =
      Except.error (PyError.valueError "GROQ_API_KEYS not found in environment variables.") ∧
    (GroqModel.init (some "k1, k2")).toOption.isSome = true := by
  refine ⟨(init_spec none).1 (Or.inl rfl), ?_⟩
  obtain ⟨m, hm, -⟩ := (init_spec (some "k1, k2")).2 "k1, k2" rfl (by decide)
  rw [hm]
  rfl

/-- Evaluation of `__init__` on any present non-empty raw string: it returns
the fully initialized state. -/
theorem init_some_eq (r : String) (hne : r ≠ "") :
    GroqModel.init (some r) =
      Except.ok
        { api_keys := (pySplitComma r).map pyStrip
          current_index := 0
          model_name := "llama-3.1-70b-versatile"
          context_limit := 8192
          client := { model := "llama-3.1-70b-versatile",
                      groq_api_key := ((pySplitComma r).map pyStrip).getD 0 "" }
          usage_tracker :=
            fun key => if key ∈ (pySplitComma r).map pyStrip then some 0 else none } := by
  have hnil : (pySplitComma r).map pyStrip ≠ [] := fun hmap =>
    pySplitComma_ne_nil r (List.eq_nil_of_map_eq_nil hmap)
  have hpos : 0 < ((pySplitComma r).map pyStrip).length := List.length_pos.mpr hnil
  simp only [GroqModel.init]
  rw [if_neg hne]
  rw [listGet_eq_ok _ 0 "" hpos]

/-- C10: construction raises its configuration `ValueError` exactly when the
raw credential string is absent or empty; for every present non-empty raw
string — even one consisting only of commas or whitespace, such as `","` —
construction succeeds and the pool is the list of comma-separated entries with
surrounding whitespace stripped, so the pool may contain empty-string
credentials but is itself never empty. -/
theorem init_raw_parsing (raw : Option String) :
    ((∃ msg, GroqModel.init raw = Except.error (PyError.valueError msg)) ↔
      (raw = none ∨ raw = some "")) ∧
    (∀ r, raw = some r → r ≠ "" →
      ∃ m, GroqModel.init raw = Except.ok m ∧
        m.api_keys = (pySplitComma r).map pyStrip ∧
        m.api_keys ≠ []) := by
  constructor
  · constructor
    · rintro ⟨msg, hmsg⟩
      cases raw with
      | none => exact Or.inl rfl
      | some r =>
        by_cases hr : r = ""
        · exact Or.inr (by rw [hr])
        · rw [init_some_eq r hr] at hmsg
          exact Except.noConfusion hmsg
    · rintro (rfl | rfl)
      · exact ⟨"GROQ_API_KEYS not found in environment variables.", rfl⟩
      · exact ⟨"GROQ_API_KEYS not found in environment variables.", rfl⟩
  · rintro r rfl hne
    refine ⟨_, init_some_eq r hne, rfl, ?_⟩
    exact fun hmap => pySplitComma_ne_nil r (List.eq_nil_of_map_eq_nil hmap)

/-- C10 witness: the all-comma raw string "," is accepted and parses to the
two-element pool of empty credentials. -/
theorem init_raw_parsing_witness :
    (GroqModel.init (some ",")).toOption.map GroqModel.api_keys = some ["", ""] := by
  obtain ⟨m, hm, hk, -⟩ := (init_raw_parsing (some ",")).2 "," rfl (by decide)
  rw [hm]
  simp only [Except.toOption, Option.map]
  rw [hk]
  rfl

/-- `chat` never changes the credential pool, on any path. -/
theorem chat_fst_api_keys (tok : ChatGroq → List Message → Nat)
    (ainvoke : ChatGroq → List Message → Except PyError Response)
    (m : GroqModel) (prompt : String) (sp : Option String) :
    (GroqModel.chat tok ainvoke m prompt sp).1.api_keys = m.api_keys := by
  have hkeys := check_fst_api_keys m
  unfold GroqModel.chat
  dsimp only
  rcases hc : m.check_and_switch_key with ⟨m1, r⟩
  rw [hc] at hkeys
  cases r with
  | error e => exact hkeys
  | ok u0 =>
    cases u0
    dsimp only
    cases ainvoke m1.client (buildMessages sp prompt) with
    | error e => exact hkeys
    | ok resp =>
      dsimp only
      cases listGet m1.api_keys m1.current_index with
      | error e => exact hkeys
      | ok cur =>
        dsimp only
        cases dictGet m1.usage_tracker cur with
        | error e => exact hkeys
        | ok old => exact hkeys

/-- `chat` preserves the cursor invariant, on any path. -/
theorem chat_fst_inv (tok : ChatGroq → List Message → Nat)
    (ainvoke : ChatGroq → List Message → Except PyError Response)
    (m : GroqModel) (prompt : String) (sp : Option String) (h : m.CursorInv) :
    (GroqModel.chat tok ainvoke m prompt sp).1.CursorInv := by
  have hinv1 := check_fst_inv m h
  unfold GroqModel.chat
  dsimp only
  rcases hc : m.check_and_switch_key with ⟨m1, r⟩
  rw [hc] at hinv1
  cases r with
  | error e => exact hinv1
  | ok u0 =>
    cases u0
    dsimp only
    cases ainvoke m1.client (buildMessages sp prompt) with
    | error e => exact hinv1
    | ok resp =>
      dsimp only
      cases listGet m1.api_keys m1.current_index with
      | error e => exact hinv1
      | ok cur =>
        dsimp only
        cases dictGet m1.usage_tracker cur with
        | error e => exact hinv1
        | ok old => exact hinv1

/-- Any state produced by construction satisfies the cursor invariant. -/
theorem init_ok_inv (raw : Option String) (m : GroqModel)
    (h : GroqModel.init raw = Except.ok m) : m.CursorInv := by
  cases raw with
  | none => exact Except.noConfusion h
  | some r =>
    by_cases hr : r = ""
    · rw [hr] at h
      exact Except.noConfusion h
    · rw [init_some_eq r hr] at h
      injection h with h
      have hnil : (pySplitComma r).map pyStrip ≠ [] := fun hmap =>
        pySplitComma_ne_nil r (List.eq_nil_of_map_eq_nil hmap)
      have hpos : 0 < ((pySplitComma r).map pyStrip).length := List.length_pos.mpr hnil
      rw [← h]
      exact hpos

/-- C9: the invariant `0 <= current_index < len(api_keys)` is established by
construction and preserved by `_switch_key`, `_check_and_switch_key` and
`chat`, and none of these operations ever modifies the credential pool. -/
theorem index_invariant_preserved :
    (∀ raw m, GroqModel.init raw = Except.ok m → m.CursorInv) ∧
    (∀ m : GroqModel, m.CursorInv → (m.switch_key).1.CursorInv) ∧
    (∀ m : GroqModel, (m.switch_key).1.api_keys = m.api_keys) ∧
    (∀ m : GroqModel, m.CursorInv → (m.check_and_switch_key).1.CursorInv) ∧
    (∀ m : GroqModel, (m.check_and_switch_key).1.api_keys = m.api_keys) ∧
    (∀ tok ainvoke (m : GroqModel) prompt sp, m.CursorInv →
      (GroqModel.chat tok ainvoke m prompt sp).1.CursorInv) ∧
    (∀ tok ainvoke (m : GroqModel) prompt sp,
      (GroqModel.chat tok ainvoke m prompt sp).1.api_keys = m.api_keys) :=
  ⟨init_ok_inv, switch_key_fst_inv, switch_key_fst_api_keys, check_fst_inv,
   check_fst_api_keys, chat_fst_inv, chat_fst_api_keys⟩

/-- C9 witness: the invariant parts applied at the concrete two-key state, and
at a concrete construction. -/
theorem index_invariant_preserved_witness :
    (demoState.switch_key).1.CursorInv ∧
    (demoState.check_and_switch_key).1.CursorInv ∧
    ((GroqModel.chat (fun _ _ => 5) (fun _ _ => Except.ok { content := "hi" })
      demoState "q" none).1.api_keys = demoState.api_keys) := by
  have hd : demoState.CursorInv :=
    show demoState.current_index < demoState.api_keys.length by decide
  exact ⟨index_invariant_preserved.2.1 demoState hd,
    index_invariant_preserved.2.2.2.1 demoState hd,
    index_invariant_preserved.2.2.2.2.2.2 (fun _ _ => 5)
      (fun _ _ => Except.ok { content := "hi" }) demoState "q" none⟩
